import Mathlib

/-!
Shallow embedding of `src/homework.py` (a periodic homework-status poller
that relays notifications through a messaging bot) and proofs about it.

Python values that flow through the program are modelled by `PyVal`,
Python exceptions by `PyError`.  The pure helpers `check_tokens`,
`check_response` and `parse_status` are translated line by line from the
source; the main loop body (`cycle`) is translated as an explicit
state-passing function over `LoopState`, with the side effects of one
cycle (log lines, outbound messages, the fetch call, the final sleep)
recorded as a list of `Event`s and an uncaught exception escaping the
loop body recorded as an `Option PyError`.
-/

namespace HomeworkBot

/-- A Python value as it appears in this program: JSON payloads,
work-item records, strings, integers, `None`. -/
inductive PyVal where
  | str (s : String)
  | int (n : Int)
  | list (xs : List PyVal)
  | dict (entries : List (String × PyVal))
  | pyNone

mutual

/-- Python `repr`, used by `str` on containers.  Only scalar cases are
exercised by the program's own strings; container cases are included for
totality. -/
def pyRepr : PyVal → String
  | .str s => "\x27" ++ s ++ "\x27"
  | .int n => toString n
  | .pyNone => "None"
  | .list xs => "[" ++ String.intercalate ", " (pyReprList xs) ++ "]"
  | .dict es => "\x7b" ++ String.intercalate ", " (pyReprDict es) ++ "\x7d"

/-- `repr` of each element of a Python list. -/
def pyReprList : List PyVal → List String
  | [] => []
  | x :: xs => pyRepr x :: pyReprList xs

/-- `repr` of each `key: value` entry of a Python dict. -/
def pyReprDict : List (String × PyVal) → List String
  | [] => []
  | (k, v) :: es => ("\x27" ++ k ++ "\x27: " ++ pyRepr v) :: pyReprDict es

end

/-- Python `str()`, as used by f-string interpolation. -/
def pyStr : PyVal → String
  | .str s => s
  | v => pyRepr v

/-- `str(type(v))`, as interpolated into the error messages of
`check_response`. -/
def typeName : PyVal → String
  | .str _ => "<class \x27str\x27>"
  | .int _ => "<class \x27int\x27>"
  | .list _ => "<class \x27list\x27>"
  | .dict _ => "<class \x27dict\x27>"
  | .pyNone => "<class \x27NoneType\x27>"

/-- Lookup in an association list, the model of Python dict access
(`d[k]` / `d.get(k)` / `k in d`). -/
def alistLookup {α : Type} (d : List (String × α)) (k : String) : Option α :=
  match d with
  | [] => none
  | (k', v) :: rest => if k' = k then some v else alistLookup rest k

/-- The Python exceptions this program raises.  `typeError` and
`keyError` are the built-ins `TypeError` and `KeyError` (for `keyError`
the argument is the missing key or the guard message passed to the
constructor).  The remaining constructors stand for the classes of the
repository's `exceptions` module, which is imported by `homework.py`
but not present in the repository snapshot.  Modelled from the spec:
the spec's error taxonomy (its section 7) lists one error kind per
failing operation — fetch, response check, status parse, message send —
each carrying a message, and the program only ever constructs them with
one message argument and re-raises or stringifies them, so they are
modelled as plain message-carrying exceptions. -/
inductive PyError where
  | typeError (msg : String)
  | keyError (key : String)
  | checkResponseException (msg : String)
  | parseStatusException (msg : String)
  | getAPIAnswerException (msg : String)
  | sendMessageException (msg : String)
deriving Repr, DecidableEq

/-- Python `str(e)` for the exceptions above: `str` of a single-argument
exception is its argument, except `KeyError`, whose `str` is the `repr`
of the key (quoted). -/
def errStr : PyError → String
  | .typeError m => m
  | .keyError k => "\x27" ++ k ++ "\x27"
  | .checkResponseException m => m
  | .parseStatusException m => m
  | .getAPIAnswerException m => m
  | .sendMessageException m => m

/-- The process environment as seen by `os.getenv`: `none` when the
variable is unset. -/
def Env : Type := String → Option String

/-- Source line 17: `PRACTICUM_TOKEN = os.getenv("PRACTICUM_TOKEN")`. -/
def PRACTICUM_TOKEN (env : Env) : Option String := env "PRACTICUM_TOKEN"

/-- Source line 18: `TELEGRAM_TOKEN = os.getenv("TELEGRAM_TOKEN")`. -/
def TELEGRAM_TOKEN (env : Env) : Option String := env "TELEGRAM_TOKEN"

/-- Source line 19: `TELEGRAM_CHAT_ID = os.getenv("PRACTICUM_TOKEN")` —
the source reads the variable named `PRACTICUM_TOKEN` here, not
`TELEGRAM_CHAT_ID`. -/
def TELEGRAM_CHAT_ID (env : Env) : Option String := env "PRACTICUM_TOKEN"

/-- Python truthiness of an `os.getenv` result: `None` and the empty
string are falsy. -/
def pyTruthy : Option String → Bool
  | none => false
  | some s => !(s == "")

/-- `check_tokens` (source lines 42–44):
`return all([PRACTICUM_TOKEN, TELEGRAM_TOKEN, TELEGRAM_CHAT_ID])`. -/
def check_tokens (env : Env) : Bool :=
  pyTruthy (PRACTICUM_TOKEN env) && pyTruthy (TELEGRAM_TOKEN env)
    && pyTruthy (TELEGRAM_CHAT_ID env)

/-- Whether `main` takes the fatal startup path (source lines 116–119):
`if not check_tokens(): ... sys.exit(...)`. -/
def mainStartupExits (env : Env) : Bool := ! check_tokens env

/-- `HOMEWORK_VERDICTS` (source lines 25–29). -/
def HOMEWORK_VERDICTS : List (String × String) :=
  [("approved", "Работа проверена: ревьюеру всё понравилось. Ура!"),
   ("reviewing", "Работа взята на проверку ревьюером."),
   ("rejected", "Работа проверена: у ревьюера есть замечания.")]

/-- `check_response` (source lines 80–94).  On success the returned
Python value is the `homeworks` list, rendered here as `List PyVal`.
The source's membership test `if 'current_date' and 'homeworks' not in
response:` parses in Python as `'current_date' and ('homeworks' not in
response)`, and the non-empty string literal is truthy, so the whole
condition is exactly `'homeworks' not in response`; `current_date` is
never checked. -/
def check_response (response : PyVal) : Except PyError (List PyVal) :=
  match response with
  | .dict d =>
    match alistLookup d "homeworks" with
    | none =>
      .error (.checkResponseException
        "API вернул неожидаемое значение, отсутствует ключ `homework`")
    | some (.list hw_list) => .ok hw_list
    | some hw_list =>
      .error (.typeError
        ("Формат данных от API не в виде списка: " ++ typeName hw_list))
  | _ =>
    .error (.typeError
      ("Не верный тип данных, ожидаемый: " ++ typeName response))

/-- `parse_status` (source lines 97–111).  The guard `if "status" and
"homework_name" not in homework:` parses in Python as `"status" and
("homework_name" not in homework)`, i.e. it tests only `homework_name`;
an item with a name but no `status` key passes the guard and then fails
at the unguarded access `homework["status"]` with a bare
`KeyError("status")`.  A non-mapping argument fails in Python with a
container-dependent error at the membership test; it is modelled as a
`TypeError` and no claim depends on that branch.  A non-string `status`
value is never a key of `HOMEWORK_VERDICTS`, so it falls into the
unknown-status branch (hashable values; an unhashable `status` would
raise a `TypeError` in Python, modelled the same way). -/
def parse_status (homework : PyVal) : Except PyError String :=
  match homework with
  | .dict d =>
    if (alistLookup d "homework_name").isNone then
      .error (.keyError
        "Отсутствуют ключи `homework_name` и `status` для проверки ДЗ")
    else
      let homework_name := (alistLookup d "homework_name").getD PyVal.pyNone
      match alistLookup d "status" with
      | none => .error (.keyError "status")
      | some (.str homework_status) =>
        match alistLookup HOMEWORK_VERDICTS homework_status with
        | some verdict =>
          .ok ("Изменился статус проверки работы \"" ++ pyStr homework_name
            ++ "\". " ++ verdict)
        | none =>
          .error (.parseStatusException
            ("Неизвестный статус ДЗ \"" ++ homework_status ++ "\""))
      | some (.int n) =>
        .error (.parseStatusException
          ("Неизвестный статус ДЗ \"" ++ pyStr (.int n) ++ "\""))
      | some .pyNone =>
        .error (.parseStatusException "Неизвестный статус ДЗ \"None\"")
      | some _ => .error (.typeError "unhashable type")
  | _ =>
    .error (.typeError "argument is not a mapping")

/-- `RETRY_PERIOD` (source line 21): seconds slept at the end of every
cycle. -/
def RETRY_PERIOD : Nat := 600

/-- The mutable locals of `main` (source lines 122–124): the poll-cursor
timestamp and the two last-known-state scalars, both initialised to the
empty string. -/
structure LoopState where
  timestamp : Int
  current_status : String
  current_error : String
deriving Repr, DecidableEq

/-- `main`'s locals just before the loop (source lines 122–124), with
`t0` the value of `int(time.time())` at startup. -/
def initState (t0 : Int) : LoopState :=
  { timestamp := t0, current_status := "", current_error := "" }

/-- One observable side effect of a cycle: a fetch call (recording the
timestamp argument passed to `get_api_answer`), a log line, a delivered
outbound message, or the `finally`-block sleep. -/
inductive Event where
  | fetched (t : Int)
  | logDebug (msg : String)
  | logInfo (msg : String)
  | logError (msg : String)
  | sent (msg : String)
  | slept
deriving Repr, DecidableEq

/-- The external world of one or more cycles: `fetch t` is the result of
`get_api_answer(t)` (the parsed payload, or the exception it raises);
`send m` is the outcome of `bot.send_message(TELEGRAM_CHAT_ID, m)`
inside `send_message` (`Except.error terr` meaning the telegram client
raised a `TelegramError` whose `str` is `terr`). -/
structure CycleEnv where
  fetch : Int → Except PyError PyVal
  send : String → Except String Unit

/-- `send_message` (source lines 47–54): log the debug line, attempt the
delivery; on a `TelegramError` log the failure and raise
`SendMessageException(error)` (whose `str` is `str(error)`). -/
def send_message (env : CycleEnv) (message : String) :
    List Event × Except PyError Unit :=
  match env.send message with
  | .ok _ =>
    ([.logDebug ("Бот отправил сообщение: \"" ++ message ++ "\""),
      .sent message], .ok ())
  | .error terr =>
    ([.logDebug ("Бот отправил сообщение: \"" ++ message ++ "\""),
      .logError ("Не удалось отправить сообщение: \"" ++ terr ++ "\"")],
     .error (.sendMessageException terr))

/-- The `try` block of a cycle after the fetch result is known (source
lines 128–138): validate, diff against `current_status`, notify on
change.  Returns the events, the updated state, and the exception
escaping the block, if any.  The assignment `current_status =
homework_status` happens before `send_message` is called, exactly as in
the source, so the state update survives a send failure. -/
def afterFetch (env : CycleEnv) (st : LoopState) :
    Except PyError PyVal → List Event × LoopState × Except PyError Unit
  | .error e => ([], st, .error e)
  | .ok response =>
    match check_response response with
    | .error e => ([], st, .error e)
    | .ok [] => ([.logInfo "Статус не обновлен"], st, .ok ())
    | .ok (hw0 :: _) =>
      match parse_status hw0 with
      | .error e => ([], st, .error e)
      | .ok homework_status =>
        if st.current_status = homework_status then
          ([.logInfo homework_status], st, .ok ())
        else
          let sm := send_message env homework_status
          (sm.1, { st with current_status := homework_status }, sm.2)

/-- The whole `try` block of a cycle (source lines 127–138), starting
with `response = get_api_answer(timestamp)`. -/
def tryBody (env : CycleEnv) (st : LoopState) :
    List Event × LoopState × Except PyError Unit :=
  let a := afterFetch env st (env.fetch st.timestamp)
  (.fetched st.timestamp :: a.1, a.2.1, a.2.2)

/-- The exception escaping a statement that was not wrapped in a `try`:
`none` when the statement succeeded. -/
def raisedOf : Except PyError Unit → Option PyError
  | .ok _ => none
  | .error e => some e

/-- The `except Exception` handler (source lines 139–144): log the
wrapped message, and if this error's `str` differs from
`current_error`, record it and send the message.  The `send_message`
call here is not itself guarded, so a `SendMessageException` it raises
escapes the handler; that escape is the `Option PyError` component.
`current_error = str(error)` is assigned before `send_message` is
called, exactly as in the source. -/
def handleError (env : CycleEnv) (st : LoopState) (e : PyError) :
    List Event × LoopState × Option PyError :=
  let message := "Сбой в работе программы: " ++ errStr e
  if st.current_error ≠ errStr e then
    let sm := send_message env message
    (.logError message :: sm.1, { st with current_error := errStr e },
     raisedOf sm.2)
  else
    ([.logError message], st, none)

/-- One iteration of the `while True` loop (source lines 126–146):
`try` body, `except` handler, and the unconditional `finally` sleep,
which runs whether the cycle completed, was handled, or is propagating
an exception.  The `Option PyError` is the exception leaving the loop
body uncaught (crashing `main`), `none` when the loop proceeds to the
next cycle. -/
def cycle (env : CycleEnv) (st : LoopState) :
    List Event × LoopState × Option PyError :=
  let tb := tryBody env st
  match tb.2.2 with
  | .ok _ => (tb.1 ++ [.slept], tb.2.1, none)
  | .error e =>
    let h := handleError env tb.2.1 e
    (tb.1 ++ h.1 ++ [.slept], h.2.1, h.2.2)

/-- Run the loop for one environment per cycle, stopping early if an
uncaught exception leaves the loop body. -/
def run (st : LoopState) : List CycleEnv → List Event × LoopState × Option PyError
  | [] => ([], st, none)
  | env :: rest =>
    let c := cycle env st
    match c.2.2 with
    | some e => (c.1, c.2.1, some e)
    | none =>
      let r := run c.2.1 rest
      (c.1 ++ r.1, r.2.1, r.2.2)

/-- Whether an event is a delivered outbound notification. -/
def isSent : Event → Bool
  | .sent _ => true
  | _ => false

/-- Number of notifications delivered in a list of events. -/
def sentCount (evs : List Event) : Nat := (evs.filter isSent).length

/-- An environment whose fetch raises `e` every cycle and whose message
deliveries all succeed. -/
def errEnv (e : PyError) : CycleEnv :=
  { fetch := fun _ => .error e, send := fun _ => .ok () }

/-- An environment whose fetch returns the payload `r` every cycle and
whose message deliveries all succeed. -/
def okEnv (r : PyVal) : CycleEnv :=
  { fetch := fun _ => .ok r, send := fun _ => .ok () }

/-- A well-formed API payload: one work-item named `X` with status
`approved`. -/
def samplePayload : PyVal :=
  .dict [("homeworks",
          .list [.dict [("homework_name", .str "X"),
                        ("status", .str "approved")]]),
         ("current_date", .int 1)]

/-- The notification text `parse_status` produces for `samplePayload`'s
work-item. -/
def approvedMsgX : String :=
  "Изменился статус проверки работы \"X\". Работа проверена: ревьюеру всё понравилось. Ура!"

/-- An environment where the fetch raises and every message delivery
fails with a `TelegramError`. -/
def fetchErrSendFailEnv : CycleEnv :=
  { fetch := fun _ => .error (.getAPIAnswerException "boom"),
    send := fun _ => .error "net down" }

/-- An environment where the fetch succeeds with `samplePayload` and
every message delivery fails with a `TelegramError`. -/
def statusSendFailEnv : CycleEnv :=
  { fetch := fun _ => .ok samplePayload,
    send := fun _ => .error "net down" }

/-- A process environment where the source-API token and the bot token
are set but the destination-chat identifier variable is unset. -/
def envMissingChatId : Env := fun k =>
  if k = "PRACTICUM_TOKEN" then some "a"
  else if k = "TELEGRAM_TOKEN" then some "b"
  else none

/-!
Theorems about the embedded program, one per claim, with witnesses for
the theorems that carry hypotheses.
-/

/-- Claim C2, code evidence: with the source-API token and the bot token
set and the destination-chat identifier variable unset, `check_tokens`
returns `true`, so the startup check does not exit — source line 19
fills `TELEGRAM_CHAT_ID` from the `PRACTICUM_TOKEN` variable, so a
missing `TELEGRAM_CHAT_ID` variable is never detected. -/
theorem missing_chat_id_not_fatal :
    envMissingChatId "TELEGRAM_CHAT_ID" = none ∧
    check_tokens envMissingChatId = true ∧
    mainStartupExits envMissingChatId = false :=
  ⟨by decide, by decide, by decide⟩

/-- Claim C4, code evidence: a work-item with a `homework_name` key but
no `status` key passes the guard of `parse_status` (the guard tests
only `homework_name` because of the `and` short-circuit) and fails at
the unguarded access `homework["status"]` with a bare
`KeyError("status")`, which is not the guard's typed missing-key
error. -/
theorem missing_status_bare_keyError :
    parse_status (.dict [("homework_name", .str "X")])
      = .error (.keyError "status") ∧
    PyError.keyError "status"
      ≠ .keyError "Отсутствуют ключи `homework_name` и `status` для проверки ДЗ" :=
  ⟨rfl, by decide⟩

/-- Claim C5: a payload that is a mapping but has no `homeworks` key
makes `check_response` fail with the typed `CheckResponseException`,
never with a `TypeError` and never by reaching the `response["homeworks"]`
lookup. -/
theorem missing_homeworks_typed_error (d : List (String × PyVal))
    (h : alistLookup d "homeworks" = none) :
    check_response (.dict d)
      = .error (.checkResponseException
          "API вернул неожидаемое значение, отсутствует ключ `homework`") := by
  simp [check_response, h]

/-- Witness for claim C5 at the mapping `{"current_date": 1}`. -/
theorem missing_homeworks_typed_error_witness :
    check_response (.dict [("current_date", .int 1)])
      = .error (.checkResponseException
          "API вернул неожидаемое значение, отсутствует ключ `homework`") :=
  missing_homeworks_typed_error _ rfl

/-- Claim C9: a work-item whose `homework_name` is `name` and whose
`status` is `approved` parses to exactly the status-change sentence with
the name in double quotes followed by the approved verdict text. -/
theorem parse_status_approved (d : List (String × PyVal)) (name : String)
    (hname : alistLookup d "homework_name" = some (.str name))
    (hstatus : alistLookup d "status" = some (.str "approved")) :
    parse_status (.dict d)
      = .ok ("Изменился статус проверки работы \"" ++ name
          ++ "\". " ++ "Работа проверена: ревьюеру всё понравилось. Ура!") := by
  simp [parse_status, hname, hstatus, HOMEWORK_VERDICTS, alistLookup, pyStr]

/-- Witness for claim C9 at the work-item
`{"homework_name": "X", "status": "approved"}`. -/
theorem parse_status_approved_witness :
    parse_status (.dict [("homework_name", .str "X"),
                         ("status", .str "approved")])
      = .ok ("Изменился статус проверки работы \"" ++ "X"
          ++ "\". " ++ "Работа проверена: ревьюеру всё понравилось. Ура!") :=
  parse_status_approved _ "X" rfl rfl

/-- Claim C10: a mapping whose `homeworks` value is a list is accepted
by `check_response`, which returns that list unchanged, even when the
mapping has no `current_date` key at all. -/
theorem check_response_ignores_current_date (d : List (String × PyVal))
    (hws : List PyVal)
    (h : alistLookup d "homeworks" = some (.list hws))
    (hnd : alistLookup d "current_date" = none) :
    check_response (.dict d) = .ok hws := by
  simp [check_response, h]

/-- Witness for claim C10 at the mapping with an empty work-item list
and no `current_date` key. -/
theorem check_response_ignores_current_date_witness :
    check_response (.dict [("homeworks", .list [])]) = .ok [] :=
  check_response_ignores_current_date _ _ rfl rfl

/-- Claim C1, counterexample: in a cycle whose fetch raises and whose
error-report delivery fails, the `SendMessageException` raised while
reporting the prior error escapes the loop body (third component
`some _`): the loop does not proceed to a next cycle, contradicting
the claim that such a failure is only logged and never re-raised. -/
theorem reportSendFailure_crashes_cx :
    cycle fetchErrSendFailEnv (initState 0)
      = ([.fetched 0,
          .logError "Сбой в работе программы: boom",
          .logDebug "Бот отправил сообщение: \"Сбой в работе программы: boom\"",
          .logError "Не удалось отправить сообщение: \"net down\"",
          .slept],
         { timestamp := 0, current_status := "", current_error := "boom" },
         some (.sendMessageException "net down")) := rfl

/-- Claim C3, counterexample: a cycle in which the status notification
delivery fails (third component records the escaping send exception)
still ends with `current_status` holding the freshly parsed status, not
the value it had at the start of the cycle. -/
theorem state_mutated_despite_send_failure_cx :
    (cycle statusSendFailEnv (initState 0)).2.1.current_status
        = approvedMsgX ∧
    (initState 0).current_status = "" ∧
    approvedMsgX ≠ "" ∧
    (cycle statusSendFailEnv (initState 0)).2.2
        = some (.sendMessageException "net down") :=
  ⟨rfl, rfl, by decide, rfl⟩

/-- `send_message` performs no fetch. -/
theorem send_message_noFetched (env : CycleEnv) (m : String) (t : Int) :
    Event.fetched t ∉ (send_message env m).1 := by
  cases h : env.send m <;> simp [send_message, h]

/-- The `try` block after the fetch leaves the cursor unchanged. -/
theorem afterFetch_timestamp (env : CycleEnv) (st : LoopState)
    (fr : Except PyError PyVal) :
    ((afterFetch env st fr).2.1).timestamp = st.timestamp := by
  rcases fr with e | response
  · rfl
  simp only [afterFetch]
  split
  · rfl
  · rfl
  split
  · rfl
  split
  · rfl
  · rfl

/-- The `try` block after the fetch performs no further fetch. -/
theorem afterFetch_noFetched (env : CycleEnv) (st : LoopState)
    (fr : Except PyError PyVal) (t : Int) :
    Event.fetched t ∉ (afterFetch env st fr).1 := by
  rcases fr with e | response
  · simp [afterFetch]
  simp only [afterFetch]
  split
  · simp
  · simp
  split
  · simp
  split
  · simp
  · simpa using send_message_noFetched env _ t

/-- The `except` handler leaves the cursor unchanged. -/
theorem handleError_timestamp (env : CycleEnv) (st : LoopState)
    (e : PyError) :
    ((handleError env st e).2.1).timestamp = st.timestamp := by
  by_cases h : st.current_error ≠ errStr e <;> simp [handleError, h]

/-- The `except` handler performs no fetch. -/
theorem handleError_noFetched (env : CycleEnv) (st : LoopState)
    (e : PyError) (t : Int) :
    Event.fetched t ∉ (handleError env st e).1 := by
  have hsm := send_message_noFetched env
    ("Сбой в работе программы: " ++ errStr e) t
  by_cases h : st.current_error ≠ errStr e <;> simp_all [handleError]

/-- The `try` block's state keeps the cursor of the incoming state. -/
theorem tryBody_timestamp (env : CycleEnv) (st : LoopState) :
    ((tryBody env st).2.1).timestamp = st.timestamp :=
  afterFetch_timestamp env st (env.fetch st.timestamp)

/-- One cycle leaves the cursor unchanged. -/
theorem cycle_timestamp (env : CycleEnv) (st : LoopState) :
    ((cycle env st).2.1).timestamp = st.timestamp := by
  unfold cycle
  cases h : (tryBody env st).2.2 with
  | error e => simp only [h]; rw [handleError_timestamp, tryBody_timestamp]
  | ok u => simpa [h] using tryBody_timestamp env st

/-- The `try` block's events are the fetch at the incoming cursor
followed by the post-fetch events. -/
theorem tryBody_events (env : CycleEnv) (st : LoopState) :
    (tryBody env st).1
      = Event.fetched st.timestamp
          :: (afterFetch env st (env.fetch st.timestamp)).1 := rfl

/-- The `try` block's outgoing state is the post-fetch state. -/
theorem tryBody_state (env : CycleEnv) (st : LoopState) :
    (tryBody env st).2.1
      = (afterFetch env st (env.fetch st.timestamp)).2.1 := rfl

/-- Every fetch performed by a cycle receives the incoming state's
cursor. -/
theorem cycle_fetched (env : CycleEnv) (st : LoopState) (t : Int)
    (hmem : Event.fetched t ∈ (cycle env st).1) : t = st.timestamp := by
  have h1 := afterFetch_noFetched env st (env.fetch st.timestamp) t
  simp only [cycle] at hmem
  cases h : (tryBody env st).2.2 with
  | error e =>
    have h2 := handleError_noFetched env ((tryBody env st).2.1) e t
    rw [h] at hmem
    simp [tryBody_events, tryBody_state, List.mem_append] at hmem h2
    tauto
  | ok u =>
    rw [h] at hmem
    simp [tryBody_events, List.mem_append] at hmem
    tauto

/-- Any number of cycles leaves the cursor unchanged. -/
theorem run_timestamp (envs : List CycleEnv) (st : LoopState) :
    ((run st envs).2.1).timestamp = st.timestamp := by
  induction envs generalizing st with
  | nil => rfl
  | cons env rest ih =>
    unfold run
    cases h : (cycle env st).2.2 with
    | some e => simpa [h] using cycle_timestamp env st
    | none => simp only [h]; rw [ih, cycle_timestamp]

/-- Every fetch performed over any number of cycles receives the
initial state's cursor. -/
theorem run_fetched (envs : List CycleEnv) (st : LoopState) (t : Int)
    (hmem : Event.fetched t ∈ (run st envs).1) : t = st.timestamp := by
  induction envs generalizing st with
  | nil => simp [run] at hmem
  | cons env rest ih =>
    unfold run at hmem
    cases h : (cycle env st).2.2 with
    | some e =>
      simp only [h] at hmem
      exact cycle_fetched env st t hmem
    | none =>
      simp only [h, List.mem_append] at hmem
      rcases hmem with hmem | hmem
      · exact cycle_fetched env st t hmem
      · rw [ih _ hmem, cycle_timestamp]

/-- Claim C8: the cursor is computed once at startup; every fetch of
every reachable cycle receives that startup timestamp, and the state's
cursor is never advanced, rewound, or overwritten. -/
theorem cursor_never_advanced (t0 : Int) (envs : List CycleEnv) (t : Int)
    (hmem : Event.fetched t ∈ (run (initState t0) envs).1) :
    t = t0 ∧ ((run (initState t0) envs).2.1).timestamp = t0 :=
  ⟨run_fetched envs _ t hmem, run_timestamp envs _⟩

/-- Witness for claim C8: a two-cycle run started at timestamp 5
fetches with 5 and still carries cursor 5. -/
theorem cursor_never_advanced_witness :
    (5 : Int) = 5 ∧
    ((run (initState 5) [errEnv (.getAPIAnswerException "a"),
                         errEnv (.getAPIAnswerException "a")]).2.1).timestamp
      = 5 :=
  cursor_never_advanced 5 _ 5 (by decide)

/-- `sentCount` adds over concatenation. -/
theorem sentCount_append (a b : List Event) :
    sentCount (a ++ b) = sentCount a + sentCount b := by
  simp [sentCount, List.filter_append]

/-- A cycle whose fetch raises `e`, when `str(e)` differs from the last
notified error and deliveries succeed: the error is logged, notified
once, recorded in `current_error`, and the loop continues. -/
theorem cycle_errEnv_new (st : LoopState) (e : PyError)
    (h : st.current_error ≠ errStr e) :
    cycle (errEnv e) st
      = ([.fetched st.timestamp,
          .logError ("Сбой в работе программы: " ++ errStr e),
          .logDebug ("Бот отправил сообщение: \""
            ++ ("Сбой в работе программы: " ++ errStr e) ++ "\""),
          .sent ("Сбой в работе программы: " ++ errStr e),
          .slept],
         { st with current_error := errStr e }, none) := by
  simp [cycle, tryBody, afterFetch, handleError, send_message, errEnv,
    raisedOf, h]

/-- A cycle whose fetch raises `e`, when `str(e)` equals the last
notified error: the error is only logged, nothing is sent, the state is
untouched, and the loop continues. -/
theorem cycle_errEnv_dup (st : LoopState) (e : PyError)
    (h : st.current_error = errStr e) :
    cycle (errEnv e) st
      = ([.fetched st.timestamp,
          .logError ("Сбой в работе программы: " ++ errStr e),
          .slept], st, none) := by
  simp [cycle, tryBody, afterFetch, handleError, errEnv, h]

/-- A cycle whose fetch yields a payload parsing to status text `s`
different from the last notified status, with deliveries succeeding:
the notification is sent once, `current_status` is updated, and the
loop continues. -/
theorem cycle_okEnv_new (st : LoopState) (r hw : PyVal)
    (rest : List PyVal) (s : String)
    (hcr : check_response r = .ok (hw :: rest))
    (hps : parse_status hw = .ok s)
    (hne : st.current_status ≠ s) :
    cycle (okEnv r) st
      = ([.fetched st.timestamp,
          .logDebug ("Бот отправил сообщение: \"" ++ s ++ "\""),
          .sent s, .slept],
         { st with current_status := s }, none) := by
  simp [cycle, tryBody, afterFetch, send_message, okEnv, hcr, hps, hne]

/-- A cycle whose fetch yields a payload parsing to exactly the last
notified status text: the status is logged at info level, nothing is
sent, the state is untouched, and the loop continues. -/
theorem cycle_okEnv_same (st : LoopState) (r hw : PyVal)
    (rest : List PyVal) (s : String)
    (hcr : check_response r = .ok (hw :: rest))
    (hps : parse_status hw = .ok s)
    (heq : st.current_status = s) :
    cycle (okEnv r) st
      = ([.fetched st.timestamp, .logInfo s, .slept], st, none) := by
  simp [cycle, tryBody, afterFetch, okEnv, hcr, hps, heq]

/-- Claim C6: starting from a state whose last notified error differs
from `str(e)`, two consecutive cycles raising errors with the identical
string `str(e)` deliver exactly one notification in total, and a third
consecutive cycle raising an error with a different string delivers
exactly one additional notification (deliveries succeeding). -/
theorem error_dedup (st0 : LoopState) (e e' : PyError)
    (h1 : st0.current_error ≠ errStr e)
    (h2 : errStr e' ≠ errStr e) :
    sentCount (run st0 [errEnv e, errEnv e]).1 = 1 ∧
    sentCount (run st0 [errEnv e, errEnv e, errEnv e']).1 = 2 := by
  have hc1 := cycle_errEnv_new st0 e h1
  have hc2 := cycle_errEnv_dup { st0 with current_error := errStr e } e rfl
  have hc3 := cycle_errEnv_new { st0 with current_error := errStr e } e'
    (Ne.symm h2)
  constructor <;> simp [run, hc1, hc2, hc3, sentCount, isSent]

/-- Witness for claim C6 from the initial state, with two cycles
raising fetch error "a" then one raising fetch error "b". -/
theorem error_dedup_witness :
    sentCount (run (initState 0)
      [errEnv (.getAPIAnswerException "a"),
       errEnv (.getAPIAnswerException "a")]).1 = 1 ∧
    sentCount (run (initState 0)
      [errEnv (.getAPIAnswerException "a"),
       errEnv (.getAPIAnswerException "a"),
       errEnv (.getAPIAnswerException "b")]).1 = 2 :=
  error_dedup (initState 0) _ _ (by decide) (by decide)

/-- Claim C7: running the per-cycle logic twice from a state whose last
notified status differs from the parsed status `s`, with the payload
unchanged, delivers exactly one notification in total; the second cycle
delivers nothing and logs `s` at info level. -/
theorem status_idempotence (st0 : LoopState) (r hw : PyVal)
    (rest : List PyVal) (s : String)
    (hcr : check_response r = .ok (hw :: rest))
    (hps : parse_status hw = .ok s)
    (h1 : st0.current_status ≠ s) :
    sentCount (run st0 [okEnv r, okEnv r]).1 = 1 ∧
    sentCount (cycle (okEnv r) ((cycle (okEnv r) st0).2.1)).1 = 0 ∧
    Event.logInfo s ∈ (cycle (okEnv r) ((cycle (okEnv r) st0).2.1)).1 := by
  have hc1 := cycle_okEnv_new st0 r hw rest s hcr hps h1
  have hc2 := cycle_okEnv_same { st0 with current_status := s } r hw rest s
    hcr hps rfl
  refine ⟨?_, ?_, ?_⟩ <;> simp [run, hc1, hc2, sentCount, isSent]

/-- Witness for claim C7 from the initial state with `samplePayload`. -/
theorem status_idempotence_witness :
    sentCount (run (initState 0)
      [okEnv samplePayload, okEnv samplePayload]).1 = 1 ∧
    sentCount (cycle (okEnv samplePayload)
      ((cycle (okEnv samplePayload) (initState 0)).2.1)).1 = 0 ∧
    Event.logInfo approvedMsgX
      ∈ (cycle (okEnv samplePayload)
          ((cycle (okEnv samplePayload) (initState 0)).2.1)).1 :=
  status_idempotence (initState 0) samplePayload
    (.dict [("homework_name", .str "X"), ("status", .str "approved")])
    [] approvedMsgX rfl rfl (by decide)

/-- Claim C1 as amended: in a cycle where a step raises `e`, `str(e)`
differs from the last notified error, and delivering the error report
fails, the send failure is logged and the `finally` sleep still runs,
but the `SendMessageException` is re-raised out of the loop body (the
loop terminates; no notification was delivered this cycle). -/
theorem reportSendFailure_propagates (st : LoopState) (env : CycleEnv)
    (e : PyError) (terr : String)
    (hfetch : env.fetch st.timestamp = .error e)
    (hnew : st.current_error ≠ errStr e)
    (hsend : env.send ("Сбой в работе программы: " ++ errStr e)
      = .error terr) :
    (cycle env st).2.2 = some (.sendMessageException terr) ∧
    Event.logError ("Не удалось отправить сообщение: \"" ++ terr ++ "\"")
      ∈ (cycle env st).1 ∧
    Event.slept ∈ (cycle env st).1 ∧
    sentCount (cycle env st).1 = 0 := by
  refine ⟨?_, ?_, ?_, ?_⟩ <;>
    simp [cycle, tryBody, afterFetch, handleError, send_message,
      raisedOf, sentCount, isSent, hfetch, hnew, hsend]

/-- Witness for the amended claim C1: fetch raises "boom", the report
delivery fails with "net down", and the exception leaves the loop. -/
theorem reportSendFailure_propagates_witness :
    (cycle fetchErrSendFailEnv (initState 0)).2.2
        = some (.sendMessageException "net down") ∧
    Event.logError ("Не удалось отправить сообщение: \"" ++ "net down"
        ++ "\"")
      ∈ (cycle fetchErrSendFailEnv (initState 0)).1 ∧
    Event.slept ∈ (cycle fetchErrSendFailEnv (initState 0)).1 ∧
    sentCount (cycle fetchErrSendFailEnv (initState 0)).1 = 0 :=
  reportSendFailure_propagates (initState 0) fetchErrSendFailEnv
    (.getAPIAnswerException "boom") "net down" rfl (by decide) rfl

/-- Claim C3 as amended: the last-known-state scalars are assigned
before the corresponding send attempt, so a cycle whose status
notification delivery fails ends with `current_status` holding the new
status text and `current_error` holding the send failure's string, not
the values from the start of the cycle. -/
theorem state_updated_before_send (st : LoopState) (env : CycleEnv)
    (r hw : PyVal) (rest : List PyVal) (s terr : String)
    (hfetch : env.fetch st.timestamp = .ok r)
    (hcr : check_response r = .ok (hw :: rest))
    (hps : parse_status hw = .ok s)
    (hne : st.current_status ≠ s)
    (hsend : env.send s = .error terr)
    (hnewerr : st.current_error ≠ terr) :
    ((cycle env st).2.1).current_status = s ∧
    ((cycle env st).2.1).current_error = terr := by
  constructor <;>
    simp [cycle, tryBody, afterFetch, handleError, send_message, errStr,
      raisedOf, hfetch, hcr, hps, hne, hsend, hnewerr]

/-- Witness for the amended claim C3: with `samplePayload` and every
delivery failing, the cycle ends with the new status and the send
error recorded. -/
theorem state_updated_before_send_witness :
    ((cycle statusSendFailEnv (initState 0)).2.1).current_status
        = approvedMsgX ∧
    ((cycle statusSendFailEnv (initState 0)).2.1).current_error
        = "net down" :=
  state_updated_before_send (initState 0) statusSendFailEnv samplePayload
    (.dict [("homework_name", .str "X"), ("status", .str "approved")])
    [] approvedMsgX "net down" rfl rfl rfl (by decide) rfl (by decide)

end HomeworkBot
